import Mathlib

/-!
Verification of the geospatial merge-and-render pipeline of `MappingApp.py`
(Maryland Transit & Population Visualizer).

The Python source is shallowly embedded below:
* pandas dataframes become lists of typed row structures;
* a table that failed to load (`None` in the source) becomes `Option`;
* float census values become `ℚ` (the only IEEE special value the pipeline
  can produce, `+inf` from `population / 0.0`, is modelled explicitly by
  `DensityVal.posInf`);
* an uncaught Python exception becomes `Except.error` carrying the
  exception's description;
* folium objects (`FeatureGroup`, `PolyLine`, `CircleMarker`, `Choropleth`)
  become the `Layer` / `LineFeature` / `StopFeature` / `ChoroplethData`
  structures, recording exactly the data the source passes to them.
-/

namespace MappingApp

/-! ### Identifier normalisation (`fetch_population_data` lines 94–95, merge line 128)

The Census API returns every field as a JSON string (zero padded); line 95 of
the source builds `df["GEOID"] = df["state"] + df["county"] + df["tract"] +
df["block_group"]`, i.e. string concatenation.  Line 128 coerces the shapefile
key with `shapes_gdf["GEOID"].astype(str)`; a pandas column cell is either
already a string or a machine integer, which `astype(str)` renders in
decimal. -/

/-- A pandas object-column cell: either a string or an integer. -/
inductive PdValue where
  | str (s : String)
  | int (n : Nat)
deriving DecidableEq, Repr

/-- `astype(str)` applied to one cell: strings are unchanged, integers are
rendered in decimal (losing any leading zeros). -/
def astypeStr : PdValue → String
  | .str s => s
  | .int n => toString n

/-- Line 95: the canonical key for a tabular population record is the
concatenation state ++ county ++ tract ++ block group, in that order. -/
def tabularGEOID (state county tract block_group : String) : String :=
  state ++ county ++ tract ++ block_group

/-! ### Population density (source lines 127–133) -/

/-- One row of the population dataframe after `pd.to_numeric(...,
errors="coerce")`: `population` is `none` when the raw value was not numeric
(NaN). -/
structure PopRec where
  GEOID : String
  population : Option ℚ
deriving DecidableEq, Repr

/-- One row of the block-group shapefile after line 128.  `areaKm2` stands for
`row.geometry.to_crs(epsg=3857).area / 1e6` (line 131): the map from the raw
polygon ring to this number is modelled separately as `polygonAreaKm2`
below; the pipeline itself only consumes the resulting number, which is
non-negative for every shapely geometry. -/
structure ShapeRec where
  GEOID : PdValue
  areaKm2 : ℚ
deriving DecidableEq, Repr

/-- A row of `merged` after the left join of line 129. -/
structure MergedRow where
  geoid : String
  population : Option ℚ
  areaKm2 : ℚ
deriving DecidableEq, Repr

/-- Line 129: `shapes_gdf.merge(population_df[["GEOID","population"]],
on="GEOID", how="left")` — every geometry row is kept; each match with a
population row duplicates it; no match leaves population NaN (`none`). -/
def mergeOnGEOID (shapes : List ShapeRec) (pop : List PopRec) : List MergedRow :=
  shapes.flatMap fun srec =>
    match pop.filter (fun p => p.GEOID == astypeStr srec.GEOID) with
    | [] => [⟨astypeStr srec.GEOID, none, srec.areaKm2⟩]
    | ms => ms.map fun p => ⟨astypeStr srec.GEOID, p.population, srec.areaKm2⟩

/-- Line 130: `merged[merged["population"].notna() & (merged["population"] > 0)]`. -/
def filterPopulated (rows : List MergedRow) : List MergedRow :=
  rows.filter fun r => r.population.isSome && decide (0 < r.population.getD 0)

/-- An IEEE density value as produced by line 132: finite, or `+inf` from the
float division `population / 0.0` with positive numerator. -/
inductive DensityVal where
  | fin (q : ℚ)
  | posInf
deriving DecidableEq, Repr

/-- Line 132, `merged["population"] / merged["area_km2"]` on one retained row
(`pop > 0` is guaranteed by line 130): IEEE float division, `+inf` when the
area is zero. -/
def divPos (pop area : ℚ) : DensityVal :=
  if area = 0 then .posInf else .fin (pop / area)

/-- Line 133, `.clip(upper = 14000)` on one value: `min(x, 14000)`, which maps
`+inf` to the bound itself. -/
def clipUpper (bound : ℚ) : DensityVal → ℚ
  | .posInf => bound
  | .fin q => min q bound

/-- The `pop_density` value of one retained row (lines 132–133). -/
def popDensity (r : MergedRow) : ℚ :=
  clipUpper 14000 (divPos (r.population.getD 0) r.areaKm2)

/-- Lines 130–133 as a whole: the retained rows of `merged`, each paired with
its clipped `pop_density`. -/
def densityLayerRows (rows : List MergedRow) : List (MergedRow × ℚ) :=
  (filterPopulated rows).map fun r => (r, popDensity r)

/-! ### Choropleth classifier (source lines 140–141) -/

/-- Python `range(start, stop, step)` for a positive step: the values
`start + i*step` strictly below `stop`.  (For `step = 0` Python raises
`ValueError`; every use below has `step ≥ 100`.) -/
def pyRange (start stop step : ℕ) : List ℕ :=
  (List.range ((stop - start + step - 1) / step)).map fun i => start + i * step

/-- Line 140: `int(merged["pop_density"].max() // 1000 + 1) * 1000` applied to
the maximum density `x`; float floor-division by 1000 then `+ 1` then
truncation to int (the value is already integral). -/
def roundedMax (x : ℚ) : ℤ :=
  (⌊x / 1000⌋ + 1) * 1000

/-- Line 141: `bins = list(range(0, max_pop_density + 1000, max_pop_density // 10))`. -/
def binEdges (M : ℕ) : List ℕ :=
  pyRange 0 (M + 1000) (M / 10)

/-! ### GTFS tables and `plot_gtfs` (source lines 168–218) -/

/-- A row of `shapes.txt` (the columns `plot_gtfs` reads). -/
structure ShapeRow where
  shape_id : String
  shape_pt_sequence : ℕ
  shape_pt_lat : ℚ
  shape_pt_lon : ℚ
deriving DecidableEq, Repr

/-- A row of `trips.txt` restricted to the columns selected on line 176. -/
structure TripRow where
  route_id : String
  shape_id : String
deriving DecidableEq, Repr

/-- A row of `routes.txt` restricted to the columns selected on line 177. -/
structure RouteRow where
  route_id : String
  route_short_name : String
deriving DecidableEq, Repr

/-- A row of `stops.txt` (the columns `plot_gtfs` reads). -/
structure StopRow where
  stop_lat : ℚ
  stop_lon : ℚ
  stop_name : String
deriving DecidableEq, Repr

/-- The four tables of one mode's GTFS folder; `none` models a file that is
missing or unreadable, so that `pd.read_csv` raises on it
(lines 170–173). -/
structure GTFSTables where
  shapes : Option (List ShapeRow)
  trips : Option (List TripRow)
  routes : Option (List RouteRow)
  stops : Option (List StopRow)
deriving Repr

/-- The rows a single trip contributes to the left merge of line 175: one row
per route with the trip's `route_id`, or a single row with a NaN name
(`none`) when no route matches. -/
def tripRouteRows (routes : List RouteRow) (t : TripRow) :
    List (TripRow × Option String) :=
  match routes.filter (fun r => r.route_id == t.route_id) with
  | [] => [(t, none)]
  | ms => ms.map fun r => (t, some r.route_short_name)

/-- Lines 175–179: `pd.merge(trips[…], routes[…], on="route_id", how="left")` —
every trip row is kept; each matching route duplicates it, carrying its
`route_short_name`; no match leaves the name NaN (`none`). -/
def tripRoutes (trips : List TripRow) (routes : List RouteRow) :
    List (TripRow × Option String) :=
  trips.flatMap (tripRouteRows routes)

/-- One folium `PolyLine` built on lines 194–200, together with the
`shape_id` of the loop iteration that produced it. -/
structure LineFeature where
  shapeId : String
  coords : List (ℚ × ℚ)
  color : String
  tooltip : String
deriving DecidableEq, Repr

/-- One folium `CircleMarker` built on lines 204–211. -/
structure StopFeature where
  location : ℚ × ℚ
  color : String
  popup : String
deriving DecidableEq, Repr

/-- Lines 191–192: the rows of `shapes` with the given `shape_id`, sorted by
`shape_pt_sequence`, projected to `[lat, lon]` pairs. -/
def sortedShapePts (shapes : List ShapeRow) (sid : String) : List (ℚ × ℚ) :=
  (((shapes.filter fun r => r.shape_id == sid).mergeSort
      fun a b => a.shape_pt_sequence ≤ b.shape_pt_sequence).map
    fun r => (r.shape_pt_lat, r.shape_pt_lon))

/-- The loop of lines 184–200: iterate over `trip_routes` in order, keep a set
`plotted_shapes` of already-seen shape ids (modelled as a list queried by
membership), and build one `PolyLine` per first occurrence of a shape id.
The folium `PolyLine` constructor (line 194) validates its locations and
raises `ValueError("Locations is empty.")` when the coordinate list is
empty; the exception escapes the loop (features built so far are discarded
with the never-added route group).  An f-string renders a missing route
name (NaN) as `"nan"`. -/
def plotShapesLoop (shapes : List ShapeRow) (color label : String) :
    List (TripRow × Option String) → List String → Except String (List LineFeature)
  | [], _ => .ok []
  | (t, name) :: rest, seen =>
    if t.shape_id ∈ seen then
      plotShapesLoop shapes color label rest seen
    else if sortedShapePts shapes t.shape_id = [] then
      .error "ValueError: Locations is empty."
    else
      match plotShapesLoop shapes color label rest (t.shape_id :: seen) with
      | .error e => .error e
      | .ok fs =>
        .ok (⟨t.shape_id, sortedShapePts shapes t.shape_id, color,
          label ++ " Route " ++ name.getD "nan"⟩ :: fs)

/-- All `PolyLine`s one mode adds to its route group (lines 175–200), or the
`ValueError` folium raises on the first referenced shape id that has no
geometry rows. -/
def gtfsLineFeatures (shapes : List ShapeRow) (trips : List TripRow)
    (routes : List RouteRow) (color label : String) :
    Except String (List LineFeature) :=
  plotShapesLoop shapes color label (tripRoutes trips routes) []

/-- Lines 202–211: one `CircleMarker` per stop row. -/
def stopMarkers (stops : List StopRow) (color label : String) : List StopFeature :=
  stops.map fun s =>
    ⟨(s.stop_lat, s.stop_lon), color, label ++ " Stop: " ++ s.stop_name⟩

/-- The threshold-scale data of the `folium.Choropleth` of lines 149–162. -/
structure ChoroplethData where
  geoids : List String
  thresholdScale : List ℕ
deriving DecidableEq, Repr

/-- A folium `FeatureGroup` (or the `Choropleth` overlay) as added to the map:
its name, its initial visibility (`show=` keyword), and the features the
source puts into it. -/
structure Layer where
  name : String
  visible : Bool
  lines : List LineFeature := []
  markers : List StopFeature := []
  choropleth : Option ChoroplethData := none
deriving Repr

/-- `plot_gtfs(folder, color, label)` (lines 168–218): everything runs inside
one `try`.  A missing table makes `pd.read_csv` raise; a referenced shape
id with no geometry rows makes the folium `PolyLine` constructor raise
`ValueError("Locations is empty.")`.  Either way the `except` block of
lines 217–218 reports `"Failed to load {label} data"` (exception detail
elided) and nothing is added to the map.  On success the route group
(created `show=True`) is always added; the stop group (created
`show=show_stops`) is populated and added only when `show_stops` is true.
The result lists the layers added to `m`. -/
def plot_gtfs (t : GTFSTables) (color label : String) (show_stops : Bool) :
    Except String (List Layer) :=
  match t.shapes, t.trips, t.routes, t.stops with
  | some shapes, some trips, some routes, some stops =>
    match gtfsLineFeatures shapes trips routes color label with
    | .error _ => .error ("Failed to load " ++ label ++ " data")
    | .ok lineFeats =>
      let routeGroup : Layer :=
        { name := label ++ " Routes", visible := true, lines := lineFeats }
      let stopGroup : Layer :=
        { name := label ++ " Stops", visible := show_stops,
          markers := if show_stops then stopMarkers stops color label else [] }
      .ok (if show_stops then [routeGroup, stopGroup] else [routeGroup])
  | _, _, _, _ => .error ("Failed to load " ++ label ++ " data")

/-! ### Whole-script composition (source lines 107–226) -/

/-- One entry of `GTFS_FEEDS` paired with the contents of its folder. -/
structure ModeConfig where
  label : String
  color : String
  tables : GTFSTables
deriving Repr

/-- Lines 127–135: `merged` is `None` unless both dataframes loaded; otherwise
the join, filter and density computation of lines 129–133 run. -/
def makeMerged (popDf : Option (List PopRec)) (shapesDf : Option (List ShapeRec)) :
    Option (List (MergedRow × ℚ)) :=
  match popDf, shapesDf with
  | some p, some s => some (densityLayerRows (mergeOnGEOID s p))
  | _, _ => none

/-- Line 140 in context: `merged["pop_density"].max()` then `roundedMax`.
Subscripting `None` raises `TypeError`; `int(nan)` (empty maximum) raises
`ValueError`.  Neither exception is caught anywhere in the script. -/
def maxPopDensityCalc (merged : Option (List (MergedRow × ℚ))) : Except String ℤ :=
  match merged with
  | none => .error "TypeError: NoneType object is not subscriptable"
  | some rows =>
    match (rows.map fun r => r.2).max? with
    | none => .error "ValueError: cannot convert float NaN to integer"
    | some mx => .ok (roundedMax mx)

/-- Lines 148–162: the choropleth overlay, added only when the population
checkbox is on and `merged` is present. -/
def choroplethLayer (rows : List (MergedRow × ℚ)) (bins : List ℕ) : Layer :=
  { name := "Population Density", visible := true,
    choropleth := some ⟨rows.map fun r => r.1.geoid, bins⟩ }

/-- The layers contributed by the per-mode loop of lines 221–223: a mode whose
`plot_gtfs` raised contributes nothing (the exception is caught inside
`plot_gtfs`). -/
def modeLayerLists (modes : List ModeConfig) (show_stops : Bool) : List Layer :=
  (modes.map fun c => ((plot_gtfs c.tables c.color c.label show_stops).toOption).getD []).flatten

/-- The per-mode error messages surfaced via `st.error` (line 218). -/
def modeErrors (modes : List ModeConfig) (show_stops : Bool) : List String :=
  modes.filterMap fun c =>
    match plot_gtfs c.tables c.color c.label show_stops with
    | .error e => some e
    | .ok _ => none

/-- The composed map: the layers added to `m`, in addition order, plus the
warnings shown. -/
structure MapOutput where
  layers : List Layer
  warnings : List String
deriving Repr

/-- Lines 107–226 after data loading: compute `merged`, run line 140 (which
aborts the whole script when `merged` is `None` or empty), build `bins`,
conditionally add the choropleth, then loop over the selected modes and
hand the map to `st_folium`. -/
def buildMap (popDf : Option (List PopRec)) (shapesDf : Option (List ShapeRec))
    (show_population show_stops : Bool) (selected : List ModeConfig) :
    Except String MapOutput :=
  let merged := makeMerged popDf shapesDf
  match maxPopDensityCalc merged with
  | .error e => .error e
  | .ok M =>
    let bins := binEdges M.toNat
    let choro : List Layer :=
      match merged with
      | some rows => if show_population then [choroplethLayer rows bins] else []
      | none => []
    .ok ⟨choro ++ modeLayerLists selected show_stops, modeErrors selected show_stops⟩

/-! ### Area computation (source line 131)

`merged.geometry.to_crs(epsg=3857).area / 1e6` reprojects every vertex of a
polygon from geographic degrees (EPSG:4326) to spherical Web Mercator
(EPSG:3857) and then takes the planar (shoelace) area of the projected
ring, in square metres.  The spherical Web Mercator of a `(lon, lat)`
degree pair is `x = R·lon·π/180`, `y = R·log(tan(π/4 + lat·π/360))` with
`R = 6378137` m. -/

/-- EPSG:3857 spherical Web Mercator projection of one `(lon, lat)` vertex. -/
noncomputable def webMercator (p : ℝ × ℝ) : ℝ × ℝ :=
  (6378137 * (p.1 * Real.pi / 180),
   6378137 * Real.log (Real.tan (Real.pi / 4 + p.2 * Real.pi / 360)))

/-- Twice the signed shoelace area of the closed ring through the given
vertices (the successor of the last vertex is the first). -/
noncomputable def shoelaceSum (l : List (ℝ × ℝ)) : ℝ :=
  ((l.zip (l.rotate 1)).map fun q => q.1.1 * q.2.2 - q.2.1 * q.1.2).sum

/-- Line 131 for one simple polygon ring in geographic degrees: project every
vertex to EPSG:3857, take the planar shoelace area in m², convert to km². -/
noncomputable def polygonAreaKm2 (poly : List (ℝ × ℝ)) : ℝ :=
  |shoelaceSum (poly.map webMercator)| / 2 / 1000000

/-- Translation of a `(lon, lat)` vertex in longitude only. -/
def translateLon (δ : ℝ) (p : ℝ × ℝ) : ℝ × ℝ := (p.1 + δ, p.2)

/-! ## Theorems -/

/-- C1: for a tabular record and a polygon record describing the same logical
geography — the polygon's key field stores, as a string (the shapefile
representation, leading zeros intact), exactly the state‖county‖tract‖block-
group concatenation — the canonical key of line 95 and the coercion of
line 128 are byte-identical, and the GEOID join of line 129 pairs the two
records, carrying the population over. -/
theorem C1_normalizer_keys_agree (state county tract bg : String)
    (polyKey : PdValue) (area : ℚ) (pop : Option ℚ)
    (h : polyKey = .str (tabularGEOID state county tract bg)) :
    astypeStr polyKey = tabularGEOID state county tract bg
    ∧ mergeOnGEOID [⟨polyKey, area⟩] [⟨tabularGEOID state county tract bg, pop⟩]
        = [⟨tabularGEOID state county tract bg, pop, area⟩] := by
  subst h
  refine ⟨rfl, ?_⟩
  simp [mergeOnGEOID, astypeStr, List.filter]

/-- Concrete instance of C1: Allegany County tract 000100 block group 1. -/
theorem C1_witness :
    astypeStr (.str (tabularGEOID "24" "001" "000100" "1"))
        = tabularGEOID "24" "001" "000100" "1"
    ∧ mergeOnGEOID [⟨.str (tabularGEOID "24" "001" "000100" "1"), 2⟩]
        [⟨tabularGEOID "24" "001" "000100" "1", some 100⟩]
        = [⟨tabularGEOID "24" "001" "000100" "1", some 100, 2⟩] :=
  C1_normalizer_keys_agree "24" "001" "000100" "1" _ 2 (some 100) rfl

/-- C2 (counterexample): in the single-unit scenario with density 100 the
rounded maximum is 1000, but the threshold scale built on line 141 has 20
edges — 19 bins, not the 10 the claim states. -/
theorem C2_counterexample :
    roundedMax 100 = 1000 ∧ (binEdges 1000).length = 20
      ∧ ¬((binEdges 1000).length - 1 = 10) :=
  ⟨by norm_num [roundedMax], by decide, by decide⟩

/-- C2 (amended): the classifier rounds the density-100 maximum up to 1000 and
builds edges at the consecutive multiples of `rounded_max // 10` strictly
below `rounded_max + 1000`: every edge is `i * (M / 10)` (equal widths), and
for the scenario the edges are 0, 100, …, 1900 — 19 bins of width 100
covering [0, 1900], not 10 bins over [0, 1000]. -/
theorem C2_amended_bins :
    roundedMax 100 = 1000
    ∧ binEdges 1000 = [0, 100, 200, 300, 400, 500, 600, 700, 800, 900, 1000,
        1100, 1200, 1300, 1400, 1500, 1600, 1700, 1800, 1900]
    ∧ (binEdges 1000).length - 1 = 19
    ∧ ∀ (M i : ℕ) (h : i < (binEdges M).length),
        (binEdges M).get ⟨i, h⟩ = i * (M / 10) := by
  refine ⟨by norm_num [roundedMax], by decide, by decide, ?_⟩
  intro M i h
  simp [binEdges, pyRange]

/-- Concrete instance of the quantified part of C2 (amended): the fourth edge
for rounded maximum 1000 is 300. -/
theorem C2_amended_witness :
    (binEdges 1000).get ⟨3, by decide⟩ = 3 * (1000 / 10) :=
  C2_amended_bins.2.2.2 1000 3 (by decide)

/-- C3 (counterexample): a merged row with positive population and zero area
is NOT excluded by lines 130–133 — it is retained, and its density is the
clip bound 14000 (pandas turns `5 / 0.0` into `+inf`, which
`.clip(upper=14000)` maps to 14000). -/
theorem C3_counterexample :
    densityLayerRows [⟨"240010001001", some 5, 0⟩]
      = [(⟨"240010001001", some 5, 0⟩, 14000)] := by decide

/-- C3 (amended): a unit with positive population and zero area is not
excluded and causes no division fault: the IEEE division yields `+inf`,
the clip of line 133 replaces it with the bound, and the unit is retained
in the density layer with density exactly 14000. -/
theorem C3_amended_zero_area_retained (rows : List MergedRow) (r : MergedRow)
    (hmem : r ∈ rows) (hpop : r.population.isSome ∧ 0 < r.population.getD 0)
    (ha : r.areaKm2 = 0) :
    (r, (14000 : ℚ)) ∈ densityLayerRows rows := by
  have hfilter : r ∈ filterPopulated rows := by
    simp only [filterPopulated, List.mem_filter]
    exact ⟨hmem, by simp [hpop.1, hpop.2]⟩
  have hdens : popDensity r = 14000 := by
    simp [popDensity, divPos, ha, clipUpper]
  simpa only [densityLayerRows, List.mem_map, hdens] using ⟨r, hfilter, by rw [hdens]⟩

/-- Concrete instance of C3 (amended). -/
theorem C3_amended_witness :
    ((⟨"240010001001", some 5, 0⟩ : MergedRow), (14000 : ℚ))
      ∈ densityLayerRows [⟨"240010001001", some 5, 0⟩] :=
  C3_amended_zero_area_retained _ _ (by decide) (by decide) (by decide)

/-- C4 (code bug): when the population dataframe failed to load (`merged` is
`None`), line 140 subscripts `None` and raises an uncaught `TypeError`, so
the whole script aborts — no transit layer is built and no map is composed,
contrary to the degraded-mode behaviour the spec describes (and that the
guard `merged is not None` of line 148 intends). -/
theorem C4_bug_pipeline_aborts (shapesDf : Option (List ShapeRec))
    (sp ss : Bool) (selected : List ModeConfig) :
    buildMap none shapesDf sp ss selected
      = .error "TypeError: NoneType object is not subscriptable" := by
  cases shapesDf <;> rfl

/-- C5: every row retained by line 130 has a present, strictly positive
population, and its clipped density of lines 131–133 lies in [0, 14000]
(the area of a shapely geometry is never negative, which is the
hypothesis). -/
theorem C5_density_bounds (rows : List MergedRow)
    (hA : ∀ r ∈ rows, 0 ≤ r.areaKm2) :
    ∀ p ∈ densityLayerRows rows,
      (∃ q, p.1.population = some q ∧ 0 < q) ∧ 0 ≤ p.2 ∧ p.2 ≤ 14000 := by
  intro p hp
  simp only [densityLayerRows, List.mem_map] at hp
  obtain ⟨r, hr, rfl⟩ := hp
  simp only [filterPopulated, List.mem_filter, Bool.and_eq_true,
    decide_eq_true_eq] at hr
  obtain ⟨hrm, hsome, hposgd⟩ := hr
  obtain ⟨q, hq⟩ := Option.isSome_iff_exists.mp hsome
  have hq0 : 0 < q := by simpa [hq] using hposgd
  refine ⟨⟨q, hq, hq0⟩, ?_⟩
  simp only [popDensity, divPos, hq, Option.getD_some]
  by_cases harea : r.areaKm2 = 0
  · simp [harea, clipUpper]
  · have hapos : 0 < r.areaKm2 := lt_of_le_of_ne (hA r hrm) (Ne.symm harea)
    simp only [harea, if_false, clipUpper]
    exact ⟨le_min (le_of_lt (div_pos hq0 hapos)) (by norm_num), min_le_right _ _⟩

/-- Concrete instance of C5: one block group, population 100, area 1 km²,
density 100. -/
theorem C5_witness :
    (∃ q, ((⟨"240010001001", some 100, 1⟩ : MergedRow), (100 : ℚ)).1.population
        = some q ∧ 0 < q)
    ∧ (0 : ℚ) ≤ ((⟨"240010001001", some 100, 1⟩ : MergedRow), (100 : ℚ)).2
    ∧ ((⟨"240010001001", some 100, 1⟩ : MergedRow), (100 : ℚ)).2 ≤ 14000 :=
  C5_density_bounds [⟨"240010001001", some 100, 1⟩] (by decide)
    ((⟨"240010001001", some 100, 1⟩ : MergedRow), (100 : ℚ))
    (by simp [densityLayerRows, filterPopulated, popDensity, divPos, clipUpper,
      min_eq_left, show (100 : ℚ) ≤ 14000 by norm_num])

/-! ### Lemmas about the dedup loop of `plot_gtfs` -/

/-- The sorted point list of a shape id is empty exactly when `shapes.txt`
has no rows for it. -/
lemma sortedShapePts_eq_nil_iff (shapes : List ShapeRow) (sid : String) :
    sortedShapePts shapes sid = []
      ↔ shapes.filter (fun r => r.shape_id == sid) = [] := by
  unfold sortedShapePts
  constructor
  · intro h
    have hlen := congrArg List.length h
    simp only [List.length_map, List.length_mergeSort, List.length_nil] at hlen
    exact List.length_eq_zero.mp hlen
  · intro h
    rw [h]
    simp

/-- When every shape id referenced by the remaining rows has geometry rows,
the loop succeeds and emits one feature per distinct shape id not yet
seen. -/
lemma plotShapesLoop_ok (shapes : List ShapeRow) (color label : String) :
    ∀ (l : List (TripRow × Option String)) (seen : List String),
    (∀ s ∈ l.map (fun p => p.1.shape_id),
        shapes.filter (fun r => r.shape_id == s) ≠ []) →
    ∃ fs, plotShapesLoop shapes color label l seen = .ok fs
      ∧ fs.length = ((l.map fun p => p.1.shape_id).toFinset \ seen.toFinset).card := by
  intro l
  induction l with
  | nil => intro seen _; exact ⟨[], rfl, by simp⟩
  | cons hd rest ih =>
    intro seen h
    obtain ⟨t, name⟩ := hd
    have hgeom : shapes.filter (fun r => r.shape_id == t.shape_id) ≠ [] :=
      h t.shape_id (by simp)
    have hrest : ∀ s ∈ rest.map (fun p => p.1.shape_id),
        shapes.filter (fun r => r.shape_id == s) ≠ [] :=
      fun s hs => h s (by simp [hs])
    simp only [plotShapesLoop, List.map_cons, List.toFinset_cons]
    by_cases hseen : t.shape_id ∈ seen
    · rw [if_pos hseen]
      obtain ⟨fs, hok, hlen⟩ := ih seen hrest
      refine ⟨fs, hok, ?_⟩
      rw [hlen, Finset.insert_sdiff_of_mem _ (List.mem_toFinset.mpr hseen)]
    · rw [if_neg hseen]
      have hco : ¬ sortedShapePts shapes t.shape_id = [] := by
        rw [sortedShapePts_eq_nil_iff]
        exact hgeom
      rw [if_neg hco]
      obtain ⟨fs, hok, hlen⟩ := ih (t.shape_id :: seen) hrest
      rw [hok]
      refine ⟨_, rfl, ?_⟩
      simp only [List.length_cons, hlen, List.toFinset_cons, Finset.sdiff_insert,
        Finset.insert_sdiff_of_not_mem _ (fun hc => hseen (List.mem_toFinset.mp hc))]
      by_cases hmem : t.shape_id ∈
          (rest.map fun p => p.1.shape_id).toFinset \ seen.toFinset
      · rw [Finset.card_erase_add_one hmem, Finset.insert_eq_self.mpr hmem]
      · rw [Finset.erase_eq_of_not_mem hmem, Finset.card_insert_of_not_mem hmem]

/-- If some shape id referenced by the remaining rows is not yet seen and has
no geometry rows, the loop raises folium's empty-locations `ValueError`. -/
lemma plotShapesLoop_error (shapes : List ShapeRow) (color label : String) :
    ∀ (l : List (TripRow × Option String)) (seen : List String) (s : String),
    s ∈ l.map (fun p => p.1.shape_id) → s ∉ seen →
    shapes.filter (fun r => r.shape_id == s) = [] →
    plotShapesLoop shapes color label l seen
      = .error "ValueError: Locations is empty." := by
  intro l
  induction l with
  | nil => intro seen s hs _ _; simp at hs
  | cons hd rest ih =>
    intro seen s hs hnseen hfil
    obtain ⟨t, name⟩ := hd
    simp only [List.map_cons, List.mem_cons] at hs
    simp only [plotShapesLoop]
    by_cases hseen : t.shape_id ∈ seen
    · rw [if_pos hseen]
      rcases hs with hs | hs
      · exact absurd (hs ▸ hseen) hnseen
      · exact ih seen s hs hnseen hfil
    · rw [if_neg hseen]
      by_cases hco : sortedShapePts shapes t.shape_id = []
      · rw [if_pos hco]
      · rw [if_neg hco]
        have hst : s ≠ t.shape_id := by
          intro heq
          apply hco
          rw [sortedShapePts_eq_nil_iff, ← heq]
          exact hfil
        have hsrest : s ∈ rest.map (fun p => p.1.shape_id) :=
          hs.resolve_left hst
        have hrec := ih (t.shape_id :: seen) s hsrest
          (by simp [List.mem_cons, hst, hnseen]) hfil
        rw [hrec]


/-- A nonempty constant list collapses to a singleton finset. -/
lemma toFinset_of_const {α : Type} [DecidableEq α] (a : α) :
    ∀ (l : List α), l ≠ [] → (∀ x ∈ l, x = a) → l.toFinset = {a} := by
  intro l hne hall
  ext x
  simp only [List.mem_toFinset, Finset.mem_singleton]
  constructor
  · exact fun hx => hall x hx
  · rintro rfl
    cases l with
    | nil => exact absurd rfl hne
    | cons y ys => exact (hall y (by simp)) ▸ List.mem_cons_self y ys

/-- A single trip's merge block is nonempty. -/
lemma tripRouteRows_ne_nil (routes : List RouteRow) (t : TripRow) :
    tripRouteRows routes t ≠ [] := by
  unfold tripRouteRows
  cases routes.filter (fun r => r.route_id == t.route_id) <;> simp

/-- Every row of a single trip's merge block carries that trip. -/
lemma tripRouteRows_fst (routes : List RouteRow) (t : TripRow) :
    ∀ p ∈ tripRouteRows routes t, p.1 = t := by
  intro p hp
  unfold tripRouteRows at hp
  cases hfil : routes.filter (fun r => r.route_id == t.route_id) with
  | nil => rw [hfil] at hp; simp at hp; simp [hp]
  | cons m ms =>
    rw [hfil] at hp
    simp only [List.mem_map] at hp
    obtain ⟨r, _, heq⟩ := hp
    rw [← heq]

/-- The left merge of line 175 keeps every trip row at least once, so the set
of referenced shape ids is unchanged. -/
lemma tripRoutes_shapeIds (trips : List TripRow) (routes : List RouteRow) :
    ((tripRoutes trips routes).map fun p => p.1.shape_id).toFinset
      = (trips.map TripRow.shape_id).toFinset := by
  induction trips with
  | nil => simp [tripRoutes]
  | cons t rest ih =>
    simp only [tripRoutes, List.flatMap_cons, List.map_append, List.toFinset_append,
      List.map_cons, List.toFinset_cons] at ih ⊢
    rw [ih]
    have hblock : ((tripRouteRows routes t).map fun p => p.1.shape_id).toFinset
        = {t.shape_id} := by
      refine toFinset_of_const _ _ ?_ ?_
      · simp [tripRouteRows_ne_nil routes t]
      · intro x hx
        simp only [List.mem_map] at hx
        obtain ⟨p, hp, rfl⟩ := hx
        rw [tripRouteRows_fst routes t p hp]
    rw [hblock, Finset.insert_eq]

/-- Transfer of the all-geometries hypothesis across the left merge of
line 175. -/
lemma geom_all_tripRoutes (shapes : List ShapeRow) (trips : List TripRow)
    (routes : List RouteRow)
    (h : ∀ s ∈ trips.map TripRow.shape_id,
        shapes.filter (fun r => r.shape_id == s) ≠ []) :
    ∀ s ∈ (tripRoutes trips routes).map (fun p => p.1.shape_id),
      shapes.filter (fun r => r.shape_id == s) ≠ [] := by
  intro s hs
  apply h
  have hmem := List.mem_toFinset.mpr hs
  rw [tripRoutes_shapeIds trips routes] at hmem
  exact List.mem_toFinset.mp hmem

/-- When every shape id referenced by the trips has geometry rows, the line
builder succeeds and emits one feature per distinct referenced id. -/
lemma gtfsLineFeatures_ok (shapes : List ShapeRow) (trips : List TripRow)
    (routes : List RouteRow) (color label : String)
    (h : ∀ s ∈ trips.map TripRow.shape_id,
        shapes.filter (fun r => r.shape_id == s) ≠ []) :
    ∃ fs, gtfsLineFeatures shapes trips routes color label = .ok fs
      ∧ fs.length = (trips.map TripRow.shape_id).toFinset.card := by
  obtain ⟨fs, hok, hlen⟩ := plotShapesLoop_ok shapes color label
    (tripRoutes trips routes) [] (geom_all_tripRoutes shapes trips routes h)
  refine ⟨fs, hok, ?_⟩
  rw [hlen, tripRoutes_shapeIds]
  simp

/-- C6 (counterexample): the unconditional count equality fails on the
program.  With two referenced path ids, `s1` with geometry and `s2`
without, folium's `PolyLine` constructor raises on `s2`'s empty
coordinate list and the whole mode errors — zero line features are
rendered, although two distinct ids are referenced and `s1`'s geometry is
present (so even the claim's missing-geometry carve-out cannot excuse the
drop of `s1`). -/
theorem C6_counterexample :
    plot_gtfs ⟨some [⟨"s1", 1, 39, -76⟩], some [⟨"r1", "s1"⟩, ⟨"r2", "s2"⟩],
        some [], some []⟩ "blue" "Local Bus" true
      = .error ("Failed to load " ++ "Local Bus" ++ " data")
    ∧ ([(⟨"r1", "s1"⟩ : TripRow), ⟨"r2", "s2"⟩].map
        TripRow.shape_id).toFinset.card = 2
    ∧ ([⟨"s1", 1, 39, -76⟩] : List ShapeRow).filter
        (fun r => r.shape_id == "s1") ≠ [] := by
  refine ⟨?_, by decide, by decide⟩
  have h1 : gtfsLineFeatures [⟨"s1", 1, 39, -76⟩] [⟨"r1", "s1"⟩, ⟨"r2", "s2"⟩]
      [] "blue" "Local Bus" = .error "ValueError: Locations is empty." :=
    plotShapesLoop_error [⟨"s1", 1, 39, -76⟩] "blue" "Local Bus"
      (tripRoutes [⟨"r1", "s1"⟩, ⟨"r2", "s2"⟩] []) [] "s2"
      (by decide) (by simp) (by decide)
  simp [plot_gtfs, h1]

/-- C6 (amended): provided every path id referenced by the mode's trips has
geometry rows, the mode renders exactly one `PolyLine` per distinct
referenced path id — never more (dedup) and never fewer; when some
referenced id has no geometry rows, folium's empty-locations error aborts
the whole mode and zero features are rendered. -/
theorem C6_amended_dedup_count (shapes : List ShapeRow) (trips : List TripRow)
    (routes : List RouteRow) (color label : String)
    (h : ∀ s ∈ trips.map TripRow.shape_id,
        shapes.filter (fun r => r.shape_id == s) ≠ []) :
    ∃ fs, gtfsLineFeatures shapes trips routes color label = .ok fs
      ∧ fs.length = (trips.map TripRow.shape_id).toFinset.card :=
  gtfsLineFeatures_ok shapes trips routes color label h

/-- Concrete instance of C6 (amended): two trips referencing the same path id
with geometry yield exactly one line feature. -/
theorem C6_witness :
    ∃ fs, gtfsLineFeatures [⟨"s1", 1, 39, -76⟩] [⟨"r1", "s1"⟩, ⟨"r2", "s1"⟩]
        [] "blue" "Local Bus" = .ok fs
      ∧ fs.length = ([(⟨"r1", "s1"⟩ : TripRow), ⟨"r2", "s1"⟩].map
          TripRow.shape_id).toFinset.card :=
  C6_amended_dedup_count [⟨"s1", 1, 39, -76⟩] [⟨"r1", "s1"⟩, ⟨"r2", "s1"⟩]
    [] "blue" "Local Bus" (by decide)

/-- Appending mode lists appends their layer contributions. -/
lemma modeLayerLists_append (a b : List ModeConfig) (ss : Bool) :
    modeLayerLists (a ++ b) ss = modeLayerLists a ss ++ modeLayerLists b ss := by
  simp [modeLayerLists]

/-- Appending mode lists appends their reported errors. -/
lemma modeErrors_append (a b : List ModeConfig) (ss : Bool) :
    modeErrors (a ++ b) ss = modeErrors a ss ++ modeErrors b ss := by
  simp [modeErrors]

/-- C7: a mode any of whose four required tables is missing contributes no
layer to the map, the reported error names the mode, and the layers (and
errors) of the other selected modes are exactly what they would be without
this mode. -/
theorem C7_mode_failure_isolation (c : ModeConfig) (ss : Bool)
    (h : c.tables.shapes = none ∨ c.tables.trips = none
        ∨ c.tables.routes = none ∨ c.tables.stops = none) :
    plot_gtfs c.tables c.color c.label ss
        = .error ("Failed to load " ++ c.label ++ " data")
    ∧ (∀ pre post : List ModeConfig,
        modeLayerLists (pre ++ c :: post) ss
          = modeLayerLists pre ss ++ modeLayerLists post ss)
    ∧ ∀ pre post : List ModeConfig,
        modeErrors (pre ++ c :: post) ss
          = modeErrors pre ss
              ++ ("Failed to load " ++ c.label ++ " data") :: modeErrors post ss := by
  have herr : plot_gtfs c.tables c.color c.label ss
      = .error ("Failed to load " ++ c.label ++ " data") := by
    rcases htab : c.tables with ⟨sh, tr, ro, st⟩
    rw [htab] at h
    cases sh <;> cases tr <;> cases ro <;> cases st <;> simp_all [plot_gtfs]
  refine ⟨herr, ?_, ?_⟩
  · intro pre post
    rw [show pre ++ c :: post = pre ++ [c] ++ post by simp,
      modeLayerLists_append, modeLayerLists_append]
    have hc : modeLayerLists [c] ss = [] := by
      simp [modeLayerLists, herr, Except.toOption]
    rw [hc, List.append_nil]
  · intro pre post
    rw [show pre ++ c :: post = pre ++ [c] ++ post by simp,
      modeErrors_append, modeErrors_append]
    have hc : modeErrors [c] ss = ["Failed to load " ++ c.label ++ " data"] := by
      simp [modeErrors, herr]
    rw [hc]
    simp

/-- Concrete instance of C7: the Metro Subway folder is missing `shapes.txt`;
its mode reports the failure, adds nothing, and leaves an empty mode list
unaffected. -/
theorem C7_witness :
    plot_gtfs ⟨none, some [], some [], some []⟩ "red" "Metro Subway" true
        = .error ("Failed to load " ++ "Metro Subway" ++ " data")
    ∧ modeLayerLists
        [⟨"Metro Subway", "red", ⟨none, some [], some [], some []⟩⟩] true = []
    ∧ modeErrors [⟨"Metro Subway", "red", ⟨none, some [], some [], some []⟩⟩] true
        = ["Failed to load " ++ "Metro Subway" ++ " data"] := by
  have H := C7_mode_failure_isolation
    ⟨"Metro Subway", "red", ⟨none, some [], some [], some []⟩⟩ true (Or.inl rfl)
  refine ⟨H.1, ?_, ?_⟩
  · simpa [modeLayerLists] using H.2.1 [] []
  · simpa [modeErrors] using H.2.2 [] []

/-- Route and stop layer names never collide. -/
lemma routesName_ne_stopsName (label : String) :
    label ++ " Routes" ≠ label ++ " Stops" := by
  intro heq
  have h2 := congrArg String.data heq
  simp only [String.data_append] at h2
  exact absurd (List.append_cancel_left h2) (by decide)

/-- C9 (counterexample): the routes layer is NOT always rendered when the
show-stops flag is false — a mode whose trips reference a shape id with no
geometry rows fails wholesale on folium's empty-locations `ValueError`,
and no `"<mode> Routes"` layer is added at all. -/
theorem C9_counterexample :
    plot_gtfs ⟨some [], some [⟨"r1", "s1"⟩], some [], some []⟩
        "purple" "Light Rail" false
      = .error ("Failed to load " ++ "Light Rail" ++ " data") := by
  have h1 : gtfsLineFeatures [] [⟨"r1", "s1"⟩] [] "purple" "Light Rail"
      = .error "ValueError: Locations is empty." :=
    plotShapesLoop_error [] "purple" "Light Rail"
      (tripRoutes [⟨"r1", "s1"⟩] []) [] "s1" (by decide) (by simp) rfl
  simp [plot_gtfs, h1]

/-- C9 (amended): provided the mode's tables load and every trips-referenced
shape id has geometry rows, `plot_gtfs` with the show-stops flag false
still adds the `"<mode> Routes"` layer, default-visible and holding the
mode's deduplicated line features, while no layer named `"<mode> Stops"`
is added to the map (the stop group is created but never added); the two
layer names never collide, so routes and stops toggle independently. -/
theorem C9_amended_stops_hidden (shapes : List ShapeRow) (trips : List TripRow)
    (routes : List RouteRow) (stops : List StopRow) (color label : String)
    (h : ∀ s ∈ trips.map TripRow.shape_id,
        shapes.filter (fun r => r.shape_id == s) ≠ []) :
    ∃ fs ls, gtfsLineFeatures shapes trips routes color label = .ok fs
      ∧ plot_gtfs ⟨some shapes, some trips, some routes, some stops⟩
          color label false = .ok ls
      ∧ (∃ L ∈ ls, L.name = label ++ " Routes" ∧ L.visible = true
            ∧ L.lines = fs)
      ∧ ∀ L ∈ ls, L.name ≠ label ++ " Stops" := by
  obtain ⟨fs, hok, _⟩ := gtfsLineFeatures_ok shapes trips routes color label h
  refine ⟨fs, [{ name := label ++ " Routes", visible := true, lines := fs }],
    hok, ?_, ⟨_, List.mem_singleton.mpr rfl, rfl, rfl, rfl⟩, ?_⟩
  · simp [plot_gtfs, hok]
  · intro L hL
    rw [List.mem_singleton.mp hL]
    exact routesName_ne_stopsName label

/-- Concrete instance of C9 (amended): one trip, one path with geometry, one
stop, show-stops off — only the Routes layer is added. -/
theorem C9_witness :
    ∃ fs ls, gtfsLineFeatures [⟨"s1", 1, 39, -76⟩] [⟨"r1", "s1"⟩] []
        "purple" "Light Rail" = .ok fs
      ∧ plot_gtfs ⟨some [⟨"s1", 1, 39, -76⟩], some [⟨"r1", "s1"⟩], some [],
            some [⟨39, -76, "Stop A"⟩]⟩ "purple" "Light Rail" false = .ok ls
      ∧ (∃ L ∈ ls, L.name = "Light Rail" ++ " Routes" ∧ L.visible = true
            ∧ L.lines = fs)
      ∧ ∀ L ∈ ls, L.name ≠ "Light Rail" ++ " Stops" :=
  C9_amended_stops_hidden [⟨"s1", 1, 39, -76⟩] [⟨"r1", "s1"⟩] []
    [⟨39, -76, "Stop A"⟩] "purple" "Light Rail" (by decide)

/-- C10 (counterexample): a path id referenced by a trip with no rows in
`shapes.txt` does NOT yield a line feature with an empty coordinate list —
folium's `PolyLine` constructor raises `ValueError("Locations is
empty.")`, so the feature computation errors instead of emitting
anything. -/
theorem C10_counterexample :
    gtfsLineFeatures [] [⟨"r1", "s1"⟩] [] "blue" "Local Bus"
      = .error "ValueError: Locations is empty." :=
  plotShapesLoop_error [] "blue" "Local Bus" (tripRoutes [⟨"r1", "s1"⟩] []) []
    "s1" (by decide) (by simp) rfl

/-- C10 (amended): for every path id referenced by a mode's trips with no
rows in the mode's geometry table, the folium `PolyLine` constructor
raises `ValueError("Locations is empty.")` inside the mode's `try`; the
`except` block reports the failure with the mode's name and the whole
mode's layers are omitted — no line feature (empty or otherwise) is
emitted. -/
theorem C10_amended_missing_geometry_aborts_mode (shapes : List ShapeRow)
    (trips : List TripRow) (routes : List RouteRow) (color label s : String)
    (h1 : s ∈ trips.map TripRow.shape_id)
    (h2 : shapes.filter (fun r => r.shape_id == s) = []) :
    gtfsLineFeatures shapes trips routes color label
      = .error "ValueError: Locations is empty."
    ∧ ∀ (stops : List StopRow) (ss : Bool),
        plot_gtfs ⟨some shapes, some trips, some routes, some stops⟩
          color label ss = .error ("Failed to load " ++ label ++ " data") := by
  have hmem : s ∈ (tripRoutes trips routes).map fun p => p.1.shape_id := by
    have hm := List.mem_toFinset.mpr h1
    rw [← tripRoutes_shapeIds trips routes] at hm
    exact List.mem_toFinset.mp hm
  have herr : gtfsLineFeatures shapes trips routes color label
      = .error "ValueError: Locations is empty." :=
    plotShapesLoop_error shapes color label (tripRoutes trips routes) [] s
      hmem (by simp) h2
  exact ⟨herr, fun stops ss => by simp [plot_gtfs, herr]⟩

/-- Concrete instance of C10 (amended): one trip references shape `s1`,
`shapes.txt` has no rows for it; the whole mode errors. -/
theorem C10_witness :
    gtfsLineFeatures [] [⟨"r1", "s1"⟩] [] "green" "MARC Train"
      = .error "ValueError: Locations is empty."
    ∧ plot_gtfs ⟨some [], some [⟨"r1", "s1"⟩], some [], some []⟩
        "green" "MARC Train" true
      = .error ("Failed to load " ++ "MARC Train" ++ " data") := by
  have H := C10_amended_missing_geometry_aborts_mode [] [⟨"r1", "s1"⟩] []
    "green" "MARC Train" "s1" (by decide) rfl
  exact ⟨H.1, H.2 [] true⟩

/-! ### Lemmas for the area invariance -/

/-- Pointwise sums of the form `f + c·g` split. -/
lemma sum_map_add_mul {α : Type} (l : List α) (f g : α → ℝ) (c : ℝ) :
    (l.map fun x => f x + c * g x).sum = (l.map f).sum + c * (l.map g).sum := by
  induction l with
  | nil => simp
  | cons a t ih =>
    simp only [List.map_cons, List.sum_cons, ih]
    ring

/-- Around a closed ring, the sum of successor-minus-current second
coordinates telescopes to zero. -/
lemma cyclic_snd_diff_sum (l : List (ℝ × ℝ)) :
    ((l.zip (l.rotate 1)).map fun q => q.2.2 - q.1.2).sum = 0 := by
  have hlen : (l.rotate 1).length = l.length := List.length_rotate l 1
  have hsplit : ((l.zip (l.rotate 1)).map fun q => q.2.2 - q.1.2).sum
      = ((l.zip (l.rotate 1)).map fun q => q.2.2).sum
        - ((l.zip (l.rotate 1)).map fun q => q.1.2).sum := by
    induction l.zip (l.rotate 1) with
    | nil => simp
    | cons a t ih =>
      simp only [List.map_cons, List.sum_cons, ih]
      ring
  rw [hsplit]
  have h2 : (l.zip (l.rotate 1)).map Prod.snd = l.rotate 1 :=
    List.map_snd_zip _ _ (le_of_eq hlen)
  have h3 : (l.zip (l.rotate 1)).map Prod.fst = l :=
    List.map_fst_zip _ _ (le_of_eq hlen.symm)
  have h4 : ((l.zip (l.rotate 1)).map fun q => q.2.2)
      = (l.rotate 1).map fun p => p.2 := by
    have hm : ((l.zip (l.rotate 1)).map Prod.snd).map (fun p : ℝ × ℝ => p.2)
        = (l.rotate 1).map fun p => p.2 := by rw [h2]
    rw [List.map_map] at hm
    exact hm
  have h5 : ((l.zip (l.rotate 1)).map fun q => q.1.2)
      = l.map fun p => p.2 := by
    have hm : ((l.zip (l.rotate 1)).map Prod.fst).map (fun p : ℝ × ℝ => p.2)
        = l.map fun p => p.2 := by rw [h3]
    rw [List.map_map] at hm
    exact hm
  have h6 : ((l.rotate 1).map fun p => p.2).sum = (l.map fun p => p.2).sum :=
    ((List.rotate_perm l 1).map _).sum_eq
  rw [h4, h5, h6, sub_self]

/-- The shoelace sum is invariant under a uniform shift of every
x-coordinate. -/
lemma shoelaceSum_shiftX (c : ℝ) (l : List (ℝ × ℝ)) :
    shoelaceSum (l.map fun p => (p.1 + c, p.2)) = shoelaceSum l := by
  unfold shoelaceSum
  rw [show (l.map fun p => (p.1 + c, p.2)).rotate 1
      = (l.rotate 1).map fun p => (p.1 + c, p.2) from
        (List.map_rotate _ l 1).symm,
    List.zip_map, List.map_map]
  have hfun : ((l.zip (l.rotate 1)).map
        ((fun q : (ℝ × ℝ) × (ℝ × ℝ) => q.1.1 * q.2.2 - q.2.1 * q.1.2)
          ∘ Prod.map (fun p : ℝ × ℝ => (p.1 + c, p.2))
              (fun p : ℝ × ℝ => (p.1 + c, p.2))))
      = (l.zip (l.rotate 1)).map
          fun q => (q.1.1 * q.2.2 - q.2.1 * q.1.2) + c * (q.2.2 - q.1.2) := by
    apply List.map_congr_left
    intro q _
    obtain ⟨⟨x1, y1⟩, ⟨x2, y2⟩⟩ := q
    simp only [Function.comp_apply, Prod.map_apply]
    ring
  rw [hfun, sum_map_add_mul, cyclic_snd_diff_sum, mul_zero, add_zero]

/-- Longitude translation becomes a pure x-shift under Web Mercator. -/
lemma webMercator_translateLon (δ : ℝ) (p : ℝ × ℝ) :
    webMercator (translateLon δ p)
      = ((webMercator p).1 + 6378137 * (δ * Real.pi / 180), (webMercator p).2) := by
  unfold webMercator translateLon
  simp only [Prod.mk.injEq]
  refine ⟨by ring, trivial⟩

/-- C8: the `area_km2` of line 131 is invariant under translating the polygon
in longitude — two identical shapes, one near −77° and one near −76°
(`δ = 1`), get exactly equal areas, because the area is computed after the
EPSG:3857 reprojection, whose x is linear in longitude and whose y depends
only on latitude — never directly from geographic-degree coordinates. -/
theorem C8_area_longitude_invariant (poly : List (ℝ × ℝ)) (δ : ℝ) :
    polygonAreaKm2 (poly.map (translateLon δ)) = polygonAreaKm2 poly := by
  unfold polygonAreaKm2
  have hmap : (poly.map (translateLon δ)).map webMercator
      = (poly.map webMercator).map
          fun p => (p.1 + 6378137 * (δ * Real.pi / 180), p.2) := by
    rw [List.map_map, List.map_map]
    apply List.map_congr_left
    intro p _
    simp only [Function.comp_apply]
    exact webMercator_translateLon δ p
  rw [hmap, shoelaceSum_shiftX]

end MappingApp
